import Mathlib

/-!
Verification of the core of k8s-sqs-autoscaler (src/lib/sqs_poller.py):
the decision function `get_pods_delta`, the cooldown queries
`get_scale_up_delay` / `get_scale_down_delay`, the gated update
`safe_update_deployment`, the clamping `update_deployment`, and the
one-cycle step `poll`.

All counters and timestamps are modelled as `Int`.  The Python code reads
the wall clock with `time()`; here `now` is an explicit parameter threaded
through the functions that call `time()`.  The Kubernetes patch call can
fail (the surrounding `poll` catches every exception); this is modelled by
a boolean `updateOk` parameter: the cooldown-state component of the result
is computed before and independently of the patch outcome, exactly as the
Python assigns `self.last_scale_up_time = time()` before calling
`self.update_deployment`.
-/

namespace SQSAutoscaler

/-- The tunables read from `self.options` by `sqs_poller.py`. -/
structure Options where
  min_pods : Int
  max_pods : Int
  scale_up_messages : Int
  scale_down_messages : Int
  scale_up_cool_down : Int
  scale_down_cool_down : Int
  deriving Repr, DecidableEq

/-- `SQSPoller.get_pods_delta(deployment, messages)`: `pods` is
`deployment.spec.replicas`, `messages` the queue backlog. -/
def get_pods_delta (o : Options) (pods messages : Int) : Int :=
  let missing := o.min_pods - pods
  if missing > 0 then
    missing
  else
    let excessive := pods - o.max_pods
    if excessive > 0 then
      -excessive
    else if messages ≥ o.scale_up_messages ∧ pods < o.max_pods then
      1
    else if messages ≤ o.scale_down_messages ∧ pods > o.min_pods then
      -1
    else
      0

/-- The mutable cooldown fields of `SQSPoller`. -/
structure CooldownState where
  last_scale_up_time : Int
  last_scale_down_time : Int
  deriving Repr, DecidableEq

/-- Class-level initial values: `last_scale_up_time = 0`,
`last_scale_down_time = 0`. -/
def initialCooldownState : CooldownState :=
  { last_scale_up_time := 0, last_scale_down_time := 0 }

/-- `SQSPoller.get_scale_up_delay()`, with `time()` passed as `now`. -/
def get_scale_up_delay (o : Options) (s : CooldownState) (now : Int) : Int :=
  let delay := s.last_scale_up_time + o.scale_up_cool_down - now
  if delay < 0 then 0 else delay

/-- `SQSPoller.get_scale_down_delay()`, with `time()` passed as `now`. -/
def get_scale_down_delay (o : Options) (s : CooldownState) (now : Int) : Int :=
  let delay := s.last_scale_down_time + o.scale_down_cool_down - now
  if delay < 0 then 0 else delay

/-- The replica count written by `SQSPoller.update_deployment`:
`deployment.spec.replicas += pods; if < 0 then 0`. -/
def update_deployment (replicas pods : Int) : Int :=
  let r := replicas + pods
  if r < 0 then 0 else r

/-- Outcome of one gated update attempt: the cooldown state afterwards,
whether the patch call was issued, and the replica count written when the
patch succeeded (`none` when it was not issued or raised). -/
structure StepResult where
  state : CooldownState
  issued : Bool
  written : Option Int
  deriving Repr, DecidableEq

/-- `SQSPoller.safe_update_deployment(deployment, pods)`.  The timestamp
assignment precedes the `update_deployment` call in the source, so the
`state` component does not depend on `updateOk`. -/
def safe_update_deployment (o : Options) (s : CooldownState) (now : Int)
    (replicas pods : Int) (updateOk : Bool) : StepResult :=
  if pods > 0 then
    if get_scale_up_delay o s now = 0 then
      { state := { s with last_scale_up_time := now },
        issued := true,
        written := if updateOk then some (update_deployment replicas pods) else none }
    else
      { state := s, issued := false, written := none }
  else if pods < 0 then
    if get_scale_down_delay o s now = 0 then
      { state := { s with last_scale_down_time := now },
        issued := true,
        written := if updateOk then some (update_deployment replicas pods) else none }
    else
      { state := s, issued := false, written := none }
  else
    { state := s, issued := false, written := none }

/-- The decide-and-act part of `SQSPoller.poll()` for one cycle, after the
backlog (`messages`) and the deployment (`replicas`) have been fetched. -/
def poll (o : Options) (s : CooldownState) (now replicas messages : Int)
    (updateOk : Bool) : StepResult :=
  let pods := get_pods_delta o replicas messages
  if pods ≠ 0 then
    safe_update_deployment o s now replicas pods updateOk
  else
    { state := s, issued := false, written := none }

/-- The spec's Decision Engine contract, transcribed from its five rules
(`computeDelta`), to be compared with `get_pods_delta` from the source. -/
def computeDelta_spec (o : Options) (currentReplicas backlog : Int) : Int :=
  if currentReplicas < o.min_pods then
    o.min_pods - currentReplicas
  else if currentReplicas > o.max_pods then
    -(currentReplicas - o.max_pods)
  else if backlog ≥ o.scale_up_messages ∧ currentReplicas < o.max_pods then
    1
  else if backlog ≤ o.scale_down_messages ∧ currentReplicas > o.min_pods then
    -1
  else
    0

/-- The spec's Scenario A–D configuration: minPods=2, maxPods=10,
scaleUpThreshold=100, scaleDownThreshold=10, both cooldowns 300 s. -/
def exOptions : Options :=
  { min_pods := 2, max_pods := 10, scale_up_messages := 100,
    scale_down_messages := 10, scale_up_cool_down := 300,
    scale_down_cool_down := 300 }

/-- A pinned configuration with minPods = maxPods = 5. -/
def pinOptions : Options :=
  { min_pods := 5, max_pods := 5, scale_up_messages := 100,
    scale_down_messages := 10, scale_up_cool_down := 300,
    scale_down_cool_down := 300 }

/-- A cooldown state whose last actions lie far in the past, so that both
directions are currently allowed. -/
def pastState : CooldownState :=
  { last_scale_up_time := -1000, last_scale_down_time := -1000 }

/-- C1: `get_pods_delta` is a pure total function of
(currentReplicas, backlog, config) that agrees everywhere with the spec's
five-rule `computeDelta` evaluated in strict priority order — not only on
non-negative inputs, but on all integers. -/
theorem c1_get_pods_delta_matches_spec (o : Options) (pods messages : Int) :
    get_pods_delta o pods messages = computeDelta_spec o pods messages := by
  unfold get_pods_delta computeDelta_spec
  dsimp only
  split_ifs <;> omega

/-- C3: each direction's remaining-wait query returns exactly
`max 0 (lastActionAt + cooldown - now)`; and in the spec's Scenario D —
a scale-up recorded at t = 0 with a 300 s cooldown — the up-direction
delay queried at t = 100 is 200. -/
theorem c3_delay_is_clamped_remaining_wait :
    (∀ (o : Options) (s : CooldownState) (now : Int),
      get_scale_up_delay o s now =
        max 0 (s.last_scale_up_time + o.scale_up_cool_down - now) ∧
      get_scale_down_delay o s now =
        max 0 (s.last_scale_down_time + o.scale_down_cool_down - now)) ∧
    get_scale_up_delay exOptions
      (safe_update_deployment exOptions pastState 0 5 1 true).state 100 = 200 := by
  constructor
  · intro o s now
    unfold get_scale_up_delay get_scale_down_delay
    dsimp only
    constructor <;> split_ifs <;> omega
  · decide

/-- C4 counterexample: with minPods = maxPods = 5 and currentReplicas = 4,
`get_pods_delta` returns +1 (via the corrective floor rule), so the claim
that it never returns +1 or -1 for any currentReplicas is false. -/
theorem c4_counterexample_plus_one_when_pinned :
    get_pods_delta pinOptions 4 0 = 1 := by
  decide

/-- C4 amended: if minPods = maxPods, the delta is always the corrective
value minPods - currentReplicas, independent of the backlog; rules 3 and 4
never fire, so the only ±1 outputs are corrective jumps of size one. -/
theorem c4_pinned_delta_is_corrective (o : Options) (pods messages : Int)
    (h : o.min_pods = o.max_pods) :
    get_pods_delta o pods messages = o.min_pods - pods := by
  unfold get_pods_delta
  dsimp only
  split_ifs <;> omega

/-- Witness for C4 amended at the pinned configuration. -/
theorem c4_pinned_delta_is_corrective_witness :
    get_pods_delta pinOptions 4 0 = pinOptions.min_pods - 4 :=
  c4_pinned_delta_is_corrective pinOptions 4 0 rfl

/-- C8: the replica count written by `update_deployment` is
`max 0 (currentReplicas + delta)` and hence never negative, for every
replica count and every delta, regardless of configuration. -/
theorem c8_update_clamps_at_zero (replicas pods : Int) :
    update_deployment replicas pods = max 0 (replicas + pods) ∧
    0 ≤ update_deployment replicas pods := by
  unfold update_deployment
  dsimp only
  constructor <;> split_ifs <;> omega

/-- C2 counterexample (Scenario B with an unelapsed cooldown): with
minPods = 2 and currentReplicas = 1 the corrective delta is +1, yet when
the scale-up cooldown has not elapsed (last scale-up at t = 0, cooldown
300 s, now = 100) the cycle issues no update and leaves the cooldown state
untouched — the corrective delta does NOT bypass cooldown consultation. -/
theorem c2_counterexample_corrective_delta_blocked :
    get_pods_delta exOptions 1 0 = 1 ∧
    1 < exOptions.min_pods ∧
    get_scale_up_delay exOptions initialCooldownState 100 = 200 ∧
    (poll exOptions initialCooldownState 100 1 0 true).issued = false ∧
    (poll exOptions initialCooldownState 100 1 0 true).written = none ∧
    (poll exOptions initialCooldownState 100 1 0 true).state =
      initialCooldownState := by
  decide

/-- C2 amended: corrective deltas are gated by the cooldown tracker
exactly like rule 3–4 deltas — in the one-cycle step an update is issued
if and only if the computed delta is positive and the scale-up cooldown
has elapsed, or negative and the scale-down cooldown has elapsed,
regardless of which rule produced the delta. -/
theorem c2_every_nonzero_delta_is_cooldown_gated (o : Options)
    (s : CooldownState) (now replicas messages : Int) (ok : Bool) :
    (poll o s now replicas messages ok).issued = true ↔
      (0 < get_pods_delta o replicas messages ∧
        get_scale_up_delay o s now = 0) ∨
      (get_pods_delta o replicas messages < 0 ∧
        get_scale_down_delay o s now = 0) := by
  unfold poll safe_update_deployment
  dsimp only
  split_ifs <;> simp_all <;> omega

/-- C5: the two cooldown directions are independent — overwriting the
last-scale-up timestamp leaves the scale-down delay unchanged at every
query time, and overwriting the last-scale-down timestamp leaves the
scale-up delay unchanged. -/
theorem c5_cooldown_directions_independent (o : Options)
    (s : CooldownState) (t now : Int) :
    get_scale_down_delay o { s with last_scale_up_time := t } now =
      get_scale_down_delay o s now ∧
    get_scale_up_delay o { s with last_scale_down_time := t } now =
      get_scale_up_delay o s now := by
  exact ⟨rfl, rfl⟩

/-- C6: when a gated action is allowed, the direction's timestamp is set
to the action time in the resulting state even when the update call
itself fails (modelled by `updateOk = false`), so a failed attempt still
starts a fresh cooldown window; the patch writes nothing in that case. -/
theorem c6_timestamp_recorded_before_update (o : Options)
    (s : CooldownState) (now replicas : Int) :
    (∀ pods : Int, 0 < pods → get_scale_up_delay o s now = 0 →
      (safe_update_deployment o s now replicas pods false).state.last_scale_up_time
          = now ∧
      (safe_update_deployment o s now replicas pods false).issued = true ∧
      (safe_update_deployment o s now replicas pods false).written = none) ∧
    (∀ pods : Int, pods < 0 → get_scale_down_delay o s now = 0 →
      (safe_update_deployment o s now replicas pods false).state.last_scale_down_time
          = now ∧
      (safe_update_deployment o s now replicas pods false).issued = true ∧
      (safe_update_deployment o s now replicas pods false).written = none) := by
  constructor <;> intro pods hsign hdelay <;>
    unfold safe_update_deployment <;> split_ifs <;> simp_all <;> omega

/-- Witness for C6 at a concrete allowed scale-up whose patch fails. -/
theorem c6_timestamp_recorded_before_update_witness :
    (safe_update_deployment exOptions pastState 50 3 1 false).state.last_scale_up_time
        = 50 ∧
    (safe_update_deployment exOptions pastState 50 3 1 false).issued = true ∧
    (safe_update_deployment exOptions pastState 50 3 1 false).written = none :=
  (c6_timestamp_recorded_before_update exOptions pastState 50 3).1 1
    (by decide) (by decide)

/-- C7: when the cooldown gate blocks the computed delta (positive delta
with unelapsed scale-up cooldown, negative delta with unelapsed
scale-down cooldown), the cycle mutates nothing: the cooldown state is
returned unchanged and no replica update is written. -/
theorem c7_blocked_cycle_mutates_nothing (o : Options) (s : CooldownState)
    (now replicas messages : Int) (ok : Bool)
    (hup : 0 < get_pods_delta o replicas messages →
      get_scale_up_delay o s now ≠ 0)
    (hdown : get_pods_delta o replicas messages < 0 →
      get_scale_down_delay o s now ≠ 0) :
    (poll o s now replicas messages ok).state = s ∧
    (poll o s now replicas messages ok).written = none := by
  unfold poll safe_update_deployment
  dsimp only
  split_ifs <;> simp_all

/-- Witness for C7: Scenario D — backlog 150 triggers rule 3 (+1) but the
scale-up cooldown recorded at t = 0 has 200 s left at t = 100. -/
theorem c7_blocked_cycle_mutates_nothing_witness :
    (poll exOptions initialCooldownState 100 5 150 true).state =
      initialCooldownState ∧
    (poll exOptions initialCooldownState 100 5 150 true).written = none :=
  c7_blocked_cycle_mutates_nothing exOptions initialCooldownState 100 5 150
    true (by decide) (by decide)

/-- C9 counterexample: with the initial sentinel timestamps (both 0) and
a 300 s scale-up cooldown, the delay queried at now = 100 is 200, not 0 —
so the very first scale action is not unconditionally unblocked for every
query time now ≥ 0. -/
theorem c9_counterexample_first_action_blocked :
    get_scale_up_delay exOptions initialCooldownState 100 ≠ 0 ∧
    get_scale_up_delay exOptions initialCooldownState 100 = 200 ∧
    get_scale_down_delay exOptions initialCooldownState 100 = 200 := by
  decide

/-- C9 amended: with no prior recorded action the remaining delay is
`max 0 (cooldown - now)`, so the first action of each direction is
unblocked for every query time at or past the configured cooldown — which
always holds in deployment, where `now` is wall-clock epoch seconds. -/
theorem c9_first_action_unblocked_after_cooldown (o : Options) (now : Int)
    (hup : o.scale_up_cool_down ≤ now) (hdown : o.scale_down_cool_down ≤ now) :
    get_scale_up_delay o initialCooldownState now = 0 ∧
    get_scale_down_delay o initialCooldownState now = 0 := by
  unfold get_scale_up_delay get_scale_down_delay initialCooldownState
  dsimp only
  constructor <;> split_ifs <;> omega

/-- Witness for C9 amended at now = 1000 ≥ 300. -/
theorem c9_first_action_unblocked_after_cooldown_witness :
    get_scale_up_delay exOptions initialCooldownState 1000 = 0 ∧
    get_scale_down_delay exOptions initialCooldownState 1000 = 0 :=
  c9_first_action_unblocked_after_cooldown exOptions 1000
    (by decide) (by decide)

/-- C10: for every configuration with 0 ≤ minPods ≤ maxPods and every
currentReplicas ≥ 0, adding the computed delta lands inside
[minPods, maxPods]; a floor violation lands exactly on minPods and a
ceiling violation exactly on maxPods. -/
theorem c10_delta_restores_bounds (o : Options) (replicas messages : Int)
    (h0 : 0 ≤ o.min_pods) (hmm : o.min_pods ≤ o.max_pods)
    (hr : 0 ≤ replicas) :
    (o.min_pods ≤ replicas + get_pods_delta o replicas messages ∧
      replicas + get_pods_delta o replicas messages ≤ o.max_pods) ∧
    (replicas < o.min_pods →
      replicas + get_pods_delta o replicas messages = o.min_pods) ∧
    (o.max_pods < replicas →
      replicas + get_pods_delta o replicas messages = o.max_pods) := by
  unfold get_pods_delta
  dsimp only
  split_ifs <;>
    exact ⟨⟨by omega, by omega⟩, fun h => by omega, fun h => by omega⟩

/-- Witness for C10 at Scenario A: replicas 5, backlog 150, delta +1
lands at 6 ∈ [2, 10]. -/
theorem c10_delta_restores_bounds_witness :
    (exOptions.min_pods ≤ 5 + get_pods_delta exOptions 5 150 ∧
      5 + get_pods_delta exOptions 5 150 ≤ exOptions.max_pods) ∧
    ((5 : Int) < exOptions.min_pods →
      5 + get_pods_delta exOptions 5 150 = exOptions.min_pods) ∧
    (exOptions.max_pods < 5 →
      5 + get_pods_delta exOptions 5 150 = exOptions.max_pods) :=
  c10_delta_restores_bounds exOptions 5 150 (by decide) (by decide) (by decide)

end SQSAutoscaler
